import Mathlib

/-!
Shallow embedding of the feature-extraction module of recur-scan
(src/recur_scan/features.py) and verification of its specification.

Conventions of the embedding:
* Python float amounts and scores are modelled as exact rationals and reals.
* Date strings are kept as strings; date parsing returns the proleptic
  Gregorian ordinal (days since 0001-01-00), as Python's date.toordinal.
* Fallible Python code (date parsing, ZeroDivisionError, StatisticsError)
  is modelled with Option: a raised exception is the value none.
-/

structure Transaction where
  name : String
  amount : ℚ
  date : String
deriving DecidableEq

/-! Calendar arithmetic, mirroring Python's datetime.date. -/

def isLeapYear (y : ℕ) : Bool := y % 4 == 0 && (y % 100 != 0 || y % 400 == 0)

def daysInMonth (y m : ℕ) : ℕ :=
  if m = 2 then (if isLeapYear y then 29 else 28)
  else if m = 4 ∨ m = 6 ∨ m = 9 ∨ m = 11 then 30
  else 31

def daysBeforeMonth (y m : ℕ) : ℕ :=
  (List.range (m - 1)).foldl (fun a i => a + daysInMonth y (i + 1)) 0

/-- Proleptic Gregorian ordinal of a calendar day: toOrdinal 1 1 1 = 1,
as Python's date.toordinal. -/
def toOrdinal (y m d : ℕ) : ℕ :=
  365 * (y - 1) + (y - 1) / 4 + (y - 1) / 400 - (y - 1) / 100 + daysBeforeMonth y m + d

def splitOnPred (p : Char → Bool) : List Char → List (List Char)
  | [] => [[]]
  | c :: cs =>
    let r := splitOnPred p cs
    if p c then [] :: r
    else
      match r with
      | [] => [[c]]
      | h :: t => (c :: h) :: t

def splitOnChar (sep : Char) : List Char → List (List Char) :=
  splitOnPred (fun c => c = sep)

def digitsToNat (l : List Char) : Option ℕ :=
  if l ≠ [] ∧ l.all Char.isDigit then
    some (l.foldl (fun a c => 10 * a + (c.toNat - 48)) 0)
  else none

/-- Embedding of _parse_date: strptime with the fixed pattern of four fields
YYYY-MM-DD (the lru_cache is a pure memoization and is dropped).  Returns the
Gregorian ordinal of the date, or none when the string is rejected. -/
def _parse_date (s : String) : Option ℕ :=
  match splitOnChar ('-') s.toList with
  | [ys, ms, ds] => do
    let y ← digitsToNat ys
    let m ← digitsToNat ms
    let d ← digitsToNat ds
    if ys.length ≤ 4 ∧ ms.length ≤ 2 ∧ ds.length ≤ 2 ∧
        1 ≤ y ∧ 1 ≤ m ∧ m ≤ 12 ∧ 1 ≤ d ∧ d ≤ daysInMonth y m then
      some (toOrdinal y m d)
    else none
  | _ => none

/-! Option-monad helpers: a Python loop or comprehension whose body may raise
becomes a fold in the Option monad. -/

def mapOpt {α β : Type} (f : α → Option β) : List α → Option (List β)
  | [] => some []
  | a :: l => do
    let b ← f a
    let r ← mapOpt f l
    some (b :: r)

def countM {α : Type} (p : α → Option Bool) : List α → Option ℕ
  | [] => some 0
  | a :: l => do
    let b ← p a
    let n ← countM p l
    some (if b then n + 1 else n)

/-! Simple amount features. -/

def get_n_transactions_same_amount (tx : Transaction) (all : List Transaction) : ℕ :=
  (all.filter (fun t => decide (t.amount = tx.amount))).length

def get_percent_transactions_same_amount (tx : Transaction) (all : List Transaction) : ℚ :=
  if all.isEmpty then 0
  else ((all.filter (fun t => decide (t.amount = tx.amount))).length : ℚ) / (all.length : ℚ)

/-- Python's % on numbers: floored modulus (the sign follows the divisor). -/
def pyFloorMod (x y : ℚ) : ℚ := x - y * (⌊x / y⌋ : ℤ)

def get_ends_in_99 (tx : Transaction) : Bool :=
  decide (pyFloorMod (tx.amount * 100) 100 = 99)

/-- Embedding of _get_day: int(date.split("-")[2]); none models the raised
IndexError or ValueError. -/
def _get_day (s : String) : Option ℤ :=
  match (splitOnChar ('-') s.toList).get? 2 with
  | none => none
  | some l => (digitsToNat l).map (fun n => (n : ℤ))

def get_n_transactions_same_day (tx : Transaction) (all : List Transaction)
    (n_days_off : ℕ) : Option ℕ :=
  countM (fun t => do
    let dt ← _get_day t.date
    let d0 ← _get_day tx.date
    some (decide (|dt - d0| ≤ (n_days_off : ℤ)))) all

def get_pct_transactions_same_day (tx : Transaction) (all : List Transaction)
    (n_days_off : ℕ) : Option ℚ := do
  let n ← get_n_transactions_same_day tx all n_days_off
  if all.length = 0 then none else some ((n : ℚ) / (all.length : ℚ))

/-! IntervalMatcher. -/

/-- Per-transaction body of the loop of get_n_transactions_days_apart:
some false means skipped or not matched, some true means counted, none models
the ZeroDivisionError raised by the modulus when n_days_apart is zero. -/
def daysApartPred (td : ℕ) (n_days_apart n_days_off : ℤ) (t : Transaction) : Option Bool := do
  let d ← _parse_date t.date
  let days_diff : ℤ := |(d : ℤ) - (td : ℤ)|
  if days_diff < n_days_apart - n_days_off then some false
  else if n_days_apart = 0 then none
  else
    let remainder := Int.fmod days_diff n_days_apart
    some (decide (remainder ≤ n_days_off) || decide (n_days_apart - n_days_off ≤ remainder))

def get_n_transactions_days_apart (tx : Transaction) (all : List Transaction)
    (n_days_apart n_days_off : ℤ) : Option ℕ := do
  let td ← _parse_date tx.date
  countM (daysApartPred td n_days_apart n_days_off) all

def get_pct_transactions_days_apart (tx : Transaction) (all : List Transaction)
    (n_days_apart n_days_off : ℤ) : Option ℚ := do
  let n ← get_n_transactions_days_apart tx all n_days_apart n_days_off
  if all.length = 0 then none else some ((n : ℚ) / (all.length : ℚ))

/-! RecurrenceClassifier. -/

def recSimilar (tx : Transaction) (all : List Transaction) : List Transaction :=
  all.filter (fun t =>
    decide (t.amount = tx.amount) && decide (t.name = tx.name) && !decide (t.date = tx.date))

def get_is_recurring (tx : Transaction) (all : List Transaction) : Option Bool := do
  let td ← _parse_date tx.date
  let similar := recSimilar tx all
  if similar.isEmpty then some false
  else do
    let ds ← mapOpt (fun t => _parse_date t.date) similar
    let intervals := List.insertionSort (· ≤ ·)
      (ds.map (fun (d : ℕ) => ((td : ℤ) - (d : ℤ)).natAbs))
    some (intervals.any (fun i => i % 7 == 0 || i % 14 == 0 || i % 30 == 0))

/-! Vendor heuristics. -/

def lowerStr (s : String) : String := String.mk (s.toList.map Char.toLower)

def isWordChar (c : Char) : Bool := c.isAlphanum || c == '_'

def matchHere : List Char → List Char → Option (List Char)
  | [], rest => some rest
  | _ :: _, [] => none
  | a :: as, c :: cs => if a = c then matchHere as cs else none

def wbMatchAt (alts : List (List Char)) (prevWord : Bool) (cs : List Char) : Bool :=
  !prevWord && alts.any (fun alt =>
    match matchHere alt cs with
    | some [] => true
    | some (c :: _) => !isWordChar c
    | none => false)

def searchWB (alts : List (List Char)) (prevWord : Bool) : List Char → Bool
  | [] => wbMatchAt alts prevWord []
  | c :: rest => wbMatchAt alts prevWord (c :: rest) || searchWB alts (isWordChar c) rest

/-- Word-boundary alternation search, the model of re.search with a pattern
of word-delimited alternatives and re.IGNORECASE (every alternative used in
the source starts and ends with a word character). -/
def reSearchWordBounded (alts : List String) (s : String) : Bool :=
  searchWB (alts.map (fun a => a.toList)) false ((lowerStr s).toList)

def get_is_insurance (tx : Transaction) : Bool :=
  reSearchWordBounded ["insurance", "insur", "insuranc"] tx.name

def get_is_utility (tx : Transaction) : Bool :=
  reSearchWordBounded ["utility", "utilit", "energy"] tx.name

def get_is_phone (tx : Transaction) : Bool :=
  reSearchWordBounded ["at&t", "t-mobile", "verizon"] tx.name

def get_is_always_recurring (tx : Transaction) : Bool :=
  ["google storage", "netflix", "hulu", "spotify"].contains (lowerStr tx.name)

/-! SequencePatternDetector. -/

structure SeqResult where
  sequence_confidence : ℝ
  sequence_pattern : String
  sequence_length : ℕ

/-- Candidate group of detect_sequence_patterns: case-insensitive name match
and signed 5 percent relative amount tolerance, dividing by the amount of the
reference transaction. -/
def seqVendorTxs (tx : Transaction) (all : List Transaction) : List Transaction :=
  all.filter (fun t =>
    decide (lowerStr t.name = lowerStr tx.name) &&
    decide (|t.amount - tx.amount| / tx.amount < 1 / 20))

def consecDiffs : List ℕ → List ℤ
  | [] => []
  | [_] => []
  | a :: b :: rest => ((b : ℤ) - (a : ℤ)) :: consecDiffs (b :: rest)

def listMean (l : List ℚ) : ℚ := l.sum / (l.length : ℚ)

/-- Sample variance with Bessel's correction, the square of statistics.stdev;
meaningful only for lists of two or more elements, exactly where the source
calls statistics.stdev. -/
def sampleVariance (l : List ℚ) : ℚ :=
  ((l.map (fun x => (x - listMean l) ^ 2)).sum) / ((l.length : ℚ) - 1)

def intVarQ (l : List ℤ) : ℚ := sampleVariance (l.map (fun (i : ℤ) => (i : ℚ)))

/-- The pattern loop of detect_sequence_patterns over
weekly 7, monthly 30, yearly 365, in insertion order. -/
noncomputable def seqBestLoop (avg : ℚ) (sd : ℝ) : String × ℝ :=
  ([(("weekly" : String), (7 : ℚ)), ("monthly", 30), ("yearly", 365)]).foldl
    (fun acc p =>
      if |avg - p.2| ≤ max 2 (p.2 * (1 / 10)) then
        let confidence : ℝ := 1 - sd / ((p.2 : ℝ) + 1 / 1000000)
        if acc.2 < confidence then (p.1, max 0 (min 1 confidence)) else acc
      else acc)
    (("none" : String), (0 : ℝ))

/-- Tail of detect_sequence_patterns after the candidate group was accepted:
mean and standard deviation of the consecutive gaps, then the pattern loop.
none models the StatisticsError of statistics.mean on an empty gap list. -/
noncomputable def seqFromIntervals (intervals : List ℤ) (groupLen : ℕ) : Option SeqResult :=
  if intervals.isEmpty then none
  else
    let avg := listMean (intervals.map (fun (i : ℤ) => (i : ℚ)))
    let sd : ℝ := if 1 < intervals.length then Real.sqrt (intVarQ intervals) else 0
    let best := seqBestLoop avg sd
    some ⟨best.2, best.1, groupLen⟩

noncomputable def detect_sequence_patterns (tx : Transaction) (all : List Transaction)
    (min_occurrences : ℕ := 3) : Option SeqResult :=
  if tx.amount = 0 then some ⟨0, "none", 0⟩
  else
    let vendor_txs := seqVendorTxs tx all
    if vendor_txs.length < min_occurrences then some ⟨0, "none", 0⟩
    else do
      let dates ← mapOpt (fun t => _parse_date t.date) vendor_txs
      seqFromIntervals (consecDiffs (List.insertionSort (· ≤ ·) dates)) vendor_txs.length

/-! ConfidenceScorer. -/

def confComparisons (tx : Transaction) (all : List Transaction) : List Transaction :=
  all.filter (fun t => decide (t.name = tx.name) && !decide (t.date = tx.date))

def confSimilarAmounts (tx : Transaction) (all : List Transaction) : List ℚ :=
  (confComparisons tx all).map (fun t => t.amount)

noncomputable def amountStability (tx : Transaction) (all : List Transaction) : ℝ :=
  let s := confSimilarAmounts tx all
  if s.length < 2 then 1
  else
    let mean := listMean s
    if mean = 0 then 1 else Real.sqrt (sampleVariance s) / (mean : ℝ)

def confSimilarDatesM (tx : Transaction) (all : List Transaction) : Option (List ℕ) :=
  mapOpt (fun t => _parse_date t.date) (confComparisons tx all)

/-- Interval regularity of the scorer; none is the float inf sentinel for
fewer than two dates or fewer than two gaps (gaps taken in history order,
not sorted by date, exactly as the source). -/
noncomputable def intervalRegularityOf (ds : List ℕ) : Option ℝ :=
  if ds.length < 2 then none
  else
    let intervals := consecDiffs ds
    if intervals.length < 2 then none
    else some (Real.sqrt (intVarQ intervals))

def freqCountM (tx : Transaction) (all : List Transaction) : Option ℕ := do
  let td ← _parse_date tx.date
  countM (fun t => do
    let d ← _parse_date t.date
    some (decide (((d : ℤ) - (td : ℤ)).natAbs ≤ 30)))
    (all.filter (fun t => decide (t.name = tx.name)))

def pyTokens (s : String) : List String :=
  (((splitOnPred (fun c => c.isWhitespace) s.toList).filter (fun l => l ≠ [])).map
    (fun l => String.mk l)).dedup

def jaccard_similarity (s1 s2 : List String) : ℚ :=
  let inter := (s1.filter (fun w => w ∈ s2)).length
  let uni := (s1 ++ s2.filter (fun w => w ∉ s1)).length
  if uni ≠ 0 then (inter : ℚ) / (uni : ℚ) else 0

def metadataSimilarity (tx : Transaction) (all : List Transaction) : ℚ :=
  let sims := (confComparisons tx all).map
    (fun t => jaccard_similarity (pyTokens tx.name) (pyTokens t.name))
  if sims.isEmpty then 0 else sims.sum / (sims.length : ℚ)

/-- Contribution factor of the interval regularity: 1/(1+r), and the float
identity 1/(1+inf) = 0 for the sentinel. -/
noncomputable def regFactor (reg : Option ℝ) : ℝ :=
  match reg with
  | none => 0
  | some r => 1 / (1 + r)

noncomputable def get_recurring_transaction_confidence (tx : Transaction)
    (all : List Transaction) : Option ℝ := do
  let stability := amountStability tx all
  let ds ← confSimilarDatesM tx all
  let reg := intervalRegularityOf ds
  let freq ← freqCountM tx all
  let meta := metadataSimilarity tx all
  some ((1 / (1 + stability)) * (3 / 10) + regFactor reg * (3 / 10) +
    ((freq : ℝ) / ((max freq 1 : ℕ) : ℝ)) * (1 / 5) + (meta : ℝ) * (1 / 5))

/-! FeatureAggregator. -/

structure Features where
  n_transactions_same_amount : ℕ
  percent_transactions_same_amount : ℚ
  ends_in_99 : Bool
  amount : ℚ
  same_day_exact : ℕ
  pct_transactions_same_day : ℚ
  same_day_off_by_1 : ℕ
  same_day_off_by_2 : ℕ
  fourteen_days_apart_exact : ℕ
  pct_14_days_apart_exact : ℚ
  fourteen_days_apart_off_by_1 : ℕ
  pct_14_days_apart_off_by_1 : ℚ
  seven_days_apart_exact : ℕ
  pct_7_days_apart_exact : ℚ
  seven_days_apart_off_by_1 : ℕ
  pct_7_days_apart_off_by_1 : ℚ
  is_insurance : Bool
  is_utility : Bool
  is_phone : Bool
  is_always_recurring : Bool
  is_recurring : Bool
  recurring_transaction_confidence : ℝ
  sequence_confidence : ℝ
  is_sequence_weekly : ℚ
  is_sequence_monthly : ℚ
  sequence_length : ℕ

/-- Embedding of get_features; the Option binds follow the evaluation order
of the Python dict literal, so the first raised exception makes the whole
call none. -/
noncomputable def get_features (tx : Transaction) (all : List Transaction) : Option Features := do
  let seq ← detect_sequence_patterns tx all 3
  let sde ← get_n_transactions_same_day tx all 0
  let psd ← get_pct_transactions_same_day tx all 0
  let sd1 ← get_n_transactions_same_day tx all 1
  let sd2 ← get_n_transactions_same_day tx all 2
  let d14e ← get_n_transactions_days_apart tx all 14 0
  let p14e ← get_pct_transactions_days_apart tx all 14 0
  let d14o ← get_n_transactions_days_apart tx all 14 1
  let p14o ← get_pct_transactions_days_apart tx all 14 1
  let d7e ← get_n_transactions_days_apart tx all 7 0
  let p7e ← get_pct_transactions_days_apart tx all 7 0
  let d7o ← get_n_transactions_days_apart tx all 7 1
  let p7o ← get_pct_transactions_days_apart tx all 7 1
  let isRec ← get_is_recurring tx all
  let conf ← get_recurring_transaction_confidence tx all
  some
    { n_transactions_same_amount := get_n_transactions_same_amount tx all
      percent_transactions_same_amount := get_percent_transactions_same_amount tx all
      ends_in_99 := get_ends_in_99 tx
      amount := tx.amount
      same_day_exact := sde
      pct_transactions_same_day := psd
      same_day_off_by_1 := sd1
      same_day_off_by_2 := sd2
      fourteen_days_apart_exact := d14e
      pct_14_days_apart_exact := p14e
      fourteen_days_apart_off_by_1 := d14o
      pct_14_days_apart_off_by_1 := p14o
      seven_days_apart_exact := d7e
      pct_7_days_apart_exact := p7e
      seven_days_apart_off_by_1 := d7o
      pct_7_days_apart_off_by_1 := p7o
      is_insurance := get_is_insurance tx
      is_utility := get_is_utility tx
      is_phone := get_is_phone tx
      is_always_recurring := get_is_always_recurring tx
      is_recurring := isRec
      recurring_transaction_confidence := conf
      sequence_confidence := seq.sequence_confidence
      is_sequence_weekly := if seq.sequence_pattern = "weekly" then 1 else 0
      is_sequence_monthly := if seq.sequence_pattern = "monthly" then 1 else 0
      sequence_length := seq.sequence_length }

/-- Specification-side counting predicate of the IntervalMatcher, written
with the mathematical modulus of the claim (diff mod period). -/
def intervalMatchSpec (td : ℕ) (period tol : ℤ) (t : Transaction) : Bool :=
  match _parse_date t.date with
  | none => false
  | some d =>
    let diff : ℤ := |(d : ℤ) - (td : ℤ)|
    decide (period - tol ≤ diff) &&
      (decide (diff % period ≤ tol) || decide (period - tol ≤ diff % period))

/-! Lemmas about the Option-monad helpers. -/

theorem countM_eq_filter_length {α : Type} (p : α → Option Bool) (q : α → Bool) :
    ∀ l : List α, (∀ a ∈ l, p a = some (q a)) → countM p l = some (l.filter q).length := by
  intro l
  induction l with
  | nil => intro _; rfl
  | cons a l ih =>
    intro h
    have ha := h a (List.mem_cons_self a l)
    have hl := ih (fun x hx => h x (List.mem_cons_of_mem a hx))
    cases hq : q a <;> simp [countM, ha, hl, hq, List.filter_cons]

theorem countM_isSome {α : Type} (p : α → Option Bool) :
    ∀ l : List α, (∀ a ∈ l, (p a).isSome) → ∃ n, countM p l = some n := by
  intro l
  induction l with
  | nil => exact fun _ => ⟨0, rfl⟩
  | cons a l ih =>
    intro h
    obtain ⟨b, hb⟩ := Option.isSome_iff_exists.mp (h a (List.mem_cons_self a l))
    obtain ⟨n, hn⟩ := ih (fun x hx => h x (List.mem_cons_of_mem a hx))
    exact ⟨if b then n + 1 else n, by simp [countM, hb, hn]⟩

theorem mapOpt_isSome {α β : Type} (f : α → Option β) :
    ∀ l : List α, (∀ a ∈ l, (f a).isSome) → ∃ r, mapOpt f l = some r ∧ r.length = l.length := by
  intro l
  induction l with
  | nil => exact fun _ => ⟨[], rfl, rfl⟩
  | cons a l ih =>
    intro h
    obtain ⟨b, hb⟩ := Option.isSome_iff_exists.mp (h a (List.mem_cons_self a l))
    obtain ⟨r, hr, hlen⟩ := ih (fun x hx => h x (List.mem_cons_of_mem a hx))
    exact ⟨b :: r, by simp [mapOpt, hb, hr], by simp [hlen]⟩

theorem mapOpt_cons_inv {α β : Type} {f : α → Option β} {a : α} {l : List α} {r : List β}
    (h : mapOpt f (a :: l) = some r) :
    ∃ b r', f a = some b ∧ mapOpt f l = some r' ∧ r = b :: r' := by
  cases hfa : f a with
  | none => simp [mapOpt, hfa] at h
  | some b =>
    cases hml : mapOpt f l with
    | none => simp [mapOpt, hfa, hml] at h
    | some r' =>
      refine ⟨b, r', rfl, rfl, ?_⟩
      simp [mapOpt, hfa, hml] at h
      exact h.symm

theorem mapOpt_mem_rev {α β : Type} (f : α → Option β) :
    ∀ (l : List α) (r : List β), mapOpt f l = some r → ∀ b ∈ r, ∃ a ∈ l, f a = some b := by
  intro l
  induction l with
  | nil =>
    intro r h b hb
    simp [mapOpt] at h
    subst h
    simp at hb
  | cons a l ih =>
    intro r h b hb
    obtain ⟨b0, r', hfa, hml, rfl⟩ := mapOpt_cons_inv h
    rcases List.mem_cons.mp hb with rfl | hb'
    · exact ⟨a, List.mem_cons_self a l, hfa⟩
    · obtain ⟨x, hx, hfx⟩ := ih r' hml b hb'
      exact ⟨x, List.mem_cons_of_mem a hx, hfx⟩

theorem mapOpt_mem_fwd {α β : Type} (f : α → Option β) :
    ∀ (l : List α) (r : List β), mapOpt f l = some r → ∀ a ∈ l, ∃ b ∈ r, f a = some b := by
  intro l
  induction l with
  | nil => intro r _ a ha; simp at ha
  | cons a0 l ih =>
    intro r h a ha
    obtain ⟨b0, r', hfa, hml, rfl⟩ := mapOpt_cons_inv h
    rcases List.mem_cons.mp ha with rfl | ha'
    · exact ⟨b0, List.mem_cons_self b0 r', hfa⟩
    · obtain ⟨b, hb, hfb⟩ := ih r' hml a ha'
      exact ⟨b, List.mem_cons_of_mem b0 hb, hfb⟩

/-! C2. -/

/-- C2: get_ends_in_99 returns true exactly when the cents component of the
amount is 99, that is when the amount is an integer plus 99/100; in
particular it is true at 19.99 and false at 20.00. -/
theorem ends_in_99_iff_cents_99 :
    (∀ tx : Transaction, get_ends_in_99 tx = true ↔ ∃ d : ℤ, tx.amount = (d : ℚ) + 99 / 100) ∧
    get_ends_in_99 ⟨"x", 1999 / 100, "2024-01-01"⟩ = true ∧
    get_ends_in_99 ⟨"y", 20, "2024-01-02"⟩ = false := by
  refine ⟨fun tx => ?_, ?_, ?_⟩
  case refine_2 =>
    show decide (pyFloorMod ((1999 / 100 : ℚ) * 100) 100 = 99) = true
    rw [decide_eq_true_iff]
    unfold pyFloorMod
    have hf : ⌊(1999 / 100 * 100 : ℚ) / 100⌋ = 19 := by
      rw [Int.floor_eq_iff] <;> norm_num
    rw [hf]; norm_num
  case refine_3 =>
    show decide (pyFloorMod ((20 : ℚ) * 100) 100 = 99) = false
    rw [decide_eq_false_iff_not]
    unfold pyFloorMod
    have hf : ⌊((20 : ℚ) * 100) / 100⌋ = 20 := by
      rw [Int.floor_eq_iff] <;> norm_num
    rw [hf]; norm_num
  unfold get_ends_in_99 pyFloorMod
  rw [decide_eq_true_iff]
  have h100 : tx.amount * 100 / 100 = tx.amount := by ring
  rw [h100]
  constructor
  · intro h
    refine ⟨⌊tx.amount⌋, ?_⟩
    linarith
  · rintro ⟨d, hd⟩
    have hfl : ⌊tx.amount⌋ = d := by
      rw [hd, add_comm, Int.floor_add_int]
      have : ⌊(99 / 100 : ℚ)⌋ = 0 := by
        rw [Int.floor_eq_iff] <;> norm_num
      omega
    rw [hfl, hd]
    push_cast
    ring

/-! C7. -/

/-- C7 counterexample: far from rejecting a non-positive period, the call
with periodDays = -7 completes normally and counts the transaction 7 days
away, because Python's floored modulus is defined for negative divisors. -/
theorem days_apart_negative_period_no_error :
    get_n_transactions_days_apart ⟨"a", 1, "2024-01-01"⟩ [⟨"a", 1, "2024-01-08"⟩] (-7) 0 =
      some 1 := by decide

/-- C7 amended: get_n_transactions_days_apart performs no validation of the
period: a negative period completes normally under the floored modulus, and a
zero period raises ZeroDivisionError (none) as soon as some transaction
passes the minimum-difference check. -/
theorem days_apart_no_period_validation :
    get_n_transactions_days_apart ⟨"b", 1, "2024-01-01"⟩ [⟨"b", 1, "2024-01-08"⟩] (-7) 0 =
      some 1 ∧
    get_n_transactions_days_apart ⟨"b", 1, "2024-01-01"⟩ [⟨"b", 1, "2024-01-08"⟩] 0 0 =
      none := by decide

/-! C8. -/

/-- C8: the percentage of same-amount transactions is the same-amount count
divided by the history length for a non-empty history, and 0 for an empty
history. -/
theorem percent_same_amount_ratio (tx : Transaction) (all : List Transaction) :
    (all ≠ [] → get_percent_transactions_same_amount tx all =
      (get_n_transactions_same_amount tx all : ℚ) / (all.length : ℚ)) ∧
    get_percent_transactions_same_amount tx [] = 0 := by
  constructor
  · intro h
    have he : all.isEmpty = false := by
      cases all with
      | nil => exact absurd rfl h
      | cons a l => rfl
    simp [get_percent_transactions_same_amount, get_n_transactions_same_amount, he]
  · rfl

/-- C8 witness at a concrete transaction and one-element history. -/
theorem percent_same_amount_ratio_witness :
    get_percent_transactions_same_amount ⟨"a", 5, "2024-01-01"⟩ [⟨"b", 5, "2024-01-02"⟩] =
      (get_n_transactions_same_amount ⟨"a", 5, "2024-01-01"⟩ [⟨"b", 5, "2024-01-02"⟩] : ℚ) /
        (([⟨"b", 5, "2024-01-02"⟩] : List Transaction).length : ℚ) :=
  (percent_same_amount_ratio _ _).1 (List.cons_ne_nil _ _)

/-! C10. -/

/-- C10: when the reference amount is strictly negative the signed five
percent amount filter of the sequence detector is vacuously true (a
non-negative numerator over a negative denominator is never at least 0.05),
so the candidate group is exactly the case-insensitive same-name
transactions. -/
theorem vendor_filter_vacuous_for_negative_amount
    (tx : Transaction) (all : List Transaction) (h : tx.amount < 0) :
    seqVendorTxs tx all =
      all.filter (fun t => decide (lowerStr t.name = lowerStr tx.name)) := by
  unfold seqVendorTxs
  apply List.filter_congr
  intro t _
  have hle : |t.amount - tx.amount| / tx.amount ≤ 0 :=
    div_nonpos_of_nonneg_of_nonpos (abs_nonneg _) h.le
  have hd : decide (|t.amount - tx.amount| / tx.amount < 1 / 20) = true := by
    rw [decide_eq_true_iff]
    linarith
  rw [hd, Bool.and_true]

/-- C10 witness: a concrete negative-amount reference whose candidate group
keeps transactions of wildly different amounts. -/
theorem vendor_filter_vacuous_witness :
    seqVendorTxs ⟨"Gym", -10, "2024-01-01"⟩
        [⟨"GYM", 500, "2024-02-01"⟩, ⟨"Other", -10, "2024-03-01"⟩] =
      ([⟨"GYM", 500, "2024-02-01"⟩, ⟨"Other", -10, "2024-03-01"⟩] : List Transaction).filter
        (fun t => decide (lowerStr t.name =
          lowerStr (Transaction.mk ("Gym") (-10) ("2024-01-01")).name)) :=
  vendor_filter_vacuous_for_negative_amount _ _ (by norm_num)

/-! C5 counterexample. -/

/-- C5 counterexample: a transaction whose day-count distance from the
reference is 7 * 0 (the same date, an integer multiple of the period) is not
counted at tolerance 0: the minimum-difference check skips it. -/
theorem days_apart_zero_multiple_not_counted :
    (∃ d, _parse_date ("2024-01-01") = some d ∧ ((d : ℤ) - (d : ℤ)).natAbs = 7 * 0) ∧
    get_n_transactions_days_apart ⟨"a", 1, "2024-01-01"⟩ [⟨"a", 1, "2024-01-01"⟩] 7 0 =
      some 0 :=
  ⟨⟨738886, by decide, by decide⟩, by decide⟩

/-! C5 amended theorem. -/

/-- C5 amended: for a positive period, get_n_transactions_days_apart counts
exactly the transactions whose absolute day distance is at least
period - tolerance and whose remainder modulo the period is within the
tolerance of 0 or of the period (matches near any multiple); and every
transaction exactly period * k apart for an integer k at least 1 satisfies
the counting predicate at tolerance 0 (k = 0, the same date, is excluded by
the minimum-difference skip, which forces the restriction to positive k). -/
theorem days_apart_counts_near_multiples :
    (∀ (tx : Transaction) (all : List Transaction) (period tol : ℤ) (td : ℕ),
      0 < period → _parse_date tx.date = some td →
      (∀ t ∈ all, (_parse_date t.date).isSome) →
      get_n_transactions_days_apart tx all period tol =
        some ((all.filter (intervalMatchSpec td period tol)).length)) ∧
    (∀ (td : ℕ) (period k : ℤ) (t : Transaction) (d : ℕ),
      0 < period → 1 ≤ k → _parse_date t.date = some d →
      |(d : ℤ) - (td : ℤ)| = period * k →
      daysApartPred td period 0 t = some true) := by
  constructor
  · intro tx all period tol td hp htx hall
    unfold get_n_transactions_days_apart
    rw [htx]
    show countM (daysApartPred td period tol) all =
      some ((all.filter (intervalMatchSpec td period tol)).length)
    apply countM_eq_filter_length
    intro t ht
    obtain ⟨d, hd⟩ := Option.isSome_iff_exists.mp (hall t ht)
    unfold daysApartPred intervalMatchSpec
    rw [hd]
    show (if |(d : ℤ) - (td : ℤ)| < period - tol then some false
        else if period = 0 then none
        else
          some (decide (Int.fmod |(d : ℤ) - (td : ℤ)| period ≤ tol) ||
            decide (period - tol ≤ Int.fmod |(d : ℤ) - (td : ℤ)| period))) =
      some (decide (period - tol ≤ |(d : ℤ) - (td : ℤ)|) &&
        (decide (|(d : ℤ) - (td : ℤ)| % period ≤ tol) ||
          decide (period - tol ≤ |(d : ℤ) - (td : ℤ)| % period)))
    by_cases hskip : |(d : ℤ) - (td : ℤ)| < period - tol
    · rw [if_pos hskip]
      have hf : decide (period - tol ≤ |(d : ℤ) - (td : ℤ)|) = false := by
        rw [decide_eq_false_iff_not]
        exact not_le.mpr hskip
      rw [hf, Bool.false_and]
    · rw [if_neg hskip, if_neg (by omega : ¬ period = 0)]
      have h1 : decide (period - tol ≤ |(d : ℤ) - (td : ℤ)|) = true := by
        rw [decide_eq_true_iff]
        exact not_lt.mp hskip
      rw [h1, Bool.true_and, Int.fmod_eq_emod _ hp.le]
  · intro td period k t d hp hk hd hdiff
    have hge : ¬ |(d : ℤ) - (td : ℤ)| < period - 0 := by
      rw [hdiff]
      nlinarith
    have hm : Int.fmod |(d : ℤ) - (td : ℤ)| period = 0 := by
      rw [Int.fmod_eq_emod _ hp.le, hdiff, Int.mul_emod_right]
    unfold daysApartPred
    rw [hd]
    show (if |(d : ℤ) - (td : ℤ)| < period - 0 then some false
        else if period = 0 then none
        else
          some (decide (Int.fmod |(d : ℤ) - (td : ℤ)| period ≤ 0) ||
            decide (period - 0 ≤ Int.fmod |(d : ℤ) - (td : ℤ)| period))) = some true
    rw [if_neg hge, if_neg (by omega : ¬ period = 0), hm]
    simp

/-- C5 witness: the characterization and the positive-multiple inclusion
applied at a reference on 2024-01-01 and a transaction 14 days later. -/
theorem days_apart_counts_near_multiples_witness :
    get_n_transactions_days_apart ⟨"a", 1, "2024-01-01"⟩ [⟨"a", 1, "2024-01-15"⟩] 14 0 =
      some ((([⟨"a", 1, "2024-01-15"⟩] : List Transaction).filter
        (intervalMatchSpec 738886 14 0)).length) ∧
    daysApartPred 738886 14 0 ⟨"a", 1, "2024-01-15"⟩ = some true :=
  ⟨days_apart_counts_near_multiples.1 _ _ 14 0 738886 (by norm_num) (by decide)
      (by decide),
    days_apart_counts_near_multiples.2 738886 14 1 _ 738900 (by norm_num) le_rfl
      (by decide) (by decide)⟩

/-! C4. -/

/-- C4: get_is_recurring is true exactly when the same-name same-amount
different-date subset of the history contains a member whose absolute
day-count distance from the reference is divisible by 7, 14 or 30 (an empty
subset therefore gives false). -/
theorem is_recurring_iff_divisible_interval
    (tx : Transaction) (all : List Transaction) (td : ℕ)
    (htx : _parse_date tx.date = some td)
    (hall : ∀ t ∈ recSimilar tx all, (_parse_date t.date).isSome) :
    ∃ b, get_is_recurring tx all = some b ∧
      (b = true ↔ ∃ t ∈ recSimilar tx all, ∃ d, _parse_date t.date = some d ∧
        (((td : ℤ) - (d : ℤ)).natAbs % 7 = 0 ∨ ((td : ℤ) - (d : ℤ)).natAbs % 14 = 0 ∨
          ((td : ℤ) - (d : ℤ)).natAbs % 30 = 0)) := by
  by_cases he : recSimilar tx all = []
  · refine ⟨false, ?_, ?_⟩
    · simp [get_is_recurring, htx, he]
    · simp [he]
  · obtain ⟨ds, hds, _⟩ := mapOpt_isSome (fun t => _parse_date t.date) (recSimilar tx all) hall
    have hie : (recSimilar tx all).isEmpty = false := List.isEmpty_eq_false.mpr he
    refine ⟨(List.insertionSort (· ≤ ·)
        (ds.map (fun (d : ℕ) => ((td : ℤ) - (d : ℤ)).natAbs))).any
        (fun i => i % 7 == 0 || i % 14 == 0 || i % 30 == 0), ?_, ?_⟩
    · simp [get_is_recurring, htx, hie, hds]
    · rw [List.any_eq_true]
      constructor
      · rintro ⟨i, hi, hdiv⟩
        have hi' : i ∈ ds.map (fun (d : ℕ) => ((td : ℤ) - (d : ℤ)).natAbs) :=
          (List.mem_insertionSort _).mp hi
        obtain ⟨d, hdm, rfl⟩ := List.mem_map.mp hi'
        obtain ⟨t, ht, hft⟩ := mapOpt_mem_rev _ _ _ hds d hdm
        refine ⟨t, ht, d, hft, ?_⟩
        simp only [Bool.or_eq_true, beq_iff_eq] at hdiv
        tauto
      · rintro ⟨t, ht, d, hfd, hdiv⟩
        obtain ⟨d', hd', hfd'⟩ := mapOpt_mem_fwd _ _ _ hds t ht
        rw [hfd] at hfd'
        obtain rfl : d = d' := Option.some_injective _ hfd'
        refine ⟨((td : ℤ) - (d : ℤ)).natAbs, ?_, ?_⟩
        · exact (List.mem_insertionSort _).mpr (List.mem_map.mpr ⟨d, hd', rfl⟩)
        · simp only [Bool.or_eq_true, beq_iff_eq]
          tauto

/-- C4 witness: two same-name same-amount transactions 14 days apart. -/
theorem is_recurring_iff_witness :
    ∃ b, get_is_recurring ⟨"Netflix", 10, "2024-01-01"⟩
        [⟨"Netflix", 10, "2024-01-15"⟩] = some b ∧
      (b = true ↔ ∃ t ∈ recSimilar ⟨"Netflix", 10, "2024-01-01"⟩
          [⟨"Netflix", 10, "2024-01-15"⟩],
        ∃ d, _parse_date t.date = some d ∧
          ((((738886 : ℕ) : ℤ) - (d : ℤ)).natAbs % 7 = 0 ∨
            (((738886 : ℕ) : ℤ) - (d : ℤ)).natAbs % 14 = 0 ∨
            (((738886 : ℕ) : ℤ) - (d : ℤ)).natAbs % 30 = 0)) :=
  is_recurring_iff_divisible_interval _ _ 738886 (by decide) (by decide)

/-! Evaluation lemmas for the sequence detector. -/

theorem detect_short_group (tx : Transaction) (all : List Transaction) (n : ℕ)
    (h0 : ¬ tx.amount = 0) (h1 : (seqVendorTxs tx all).length < n) :
    detect_sequence_patterns tx all n = some ⟨0, "none", 0⟩ := by
  simp only [detect_sequence_patterns]
  rw [if_neg h0, if_pos h1]

theorem detect_eval (tx : Transaction) (all : List Transaction) (n : ℕ) (ds : List ℕ)
    (h0 : ¬ tx.amount = 0) (h1 : ¬ (seqVendorTxs tx all).length < n)
    (hds : mapOpt (fun t => _parse_date t.date) (seqVendorTxs tx all) = some ds) :
    detect_sequence_patterns tx all n =
      seqFromIntervals (consecDiffs (List.insertionSort (· ≤ ·) ds))
        (seqVendorTxs tx all).length := by
  simp only [detect_sequence_patterns]
  rw [if_neg h0, if_neg h1, hds]
  rfl

theorem seqFromIntervals_const (g : ℤ) (n : ℕ) :
    seqFromIntervals [g, g, g] n =
      some ⟨(seqBestLoop (g : ℚ) 0).2, (seqBestLoop (g : ℚ) 0).1, n⟩ := by
  have havg : listMean (([g, g, g] : List ℤ).map (fun (i : ℤ) => (i : ℚ))) = (g : ℚ) := by
    simp [listMean]
    ring
  have hvar : intVarQ [g, g, g] = 0 := by
    unfold intVarQ sampleVariance
    rw [havg]
    simp only [List.map_cons, List.map_nil, List.sum_cons, List.sum_nil, List.length_cons,
      List.length_nil, sub_self]
    norm_num
  simp only [seqFromIntervals]
  rw [if_neg (by simp : ¬ ([g, g, g] : List ℤ).isEmpty = true)]
  rw [havg, hvar]
  norm_num [Real.sqrt_zero]

theorem seqBestLoop_monthly (avg : ℚ)
    (h7 : ¬ |avg - 7| ≤ max 2 (7 * (1 / 10)))
    (h30 : |avg - 30| ≤ max 2 (30 * (1 / 10)))
    (h365 : ¬ |avg - 365| ≤ max 2 (365 * (1 / 10))) :
    seqBestLoop avg 0 = (("monthly" : String), (1 : ℝ)) := by
  unfold seqBestLoop
  simp only [List.foldl_cons, List.foldl_nil]
  rw [if_neg h7, if_neg h365, if_pos h30]
  norm_num [Prod.ext_iff]

theorem seqBestLoop_no_pattern (avg : ℚ) (sd : ℝ)
    (h7 : ¬ |avg - 7| ≤ max 2 (7 * (1 / 10)))
    (h30 : ¬ |avg - 30| ≤ max 2 (30 * (1 / 10)))
    (h365 : ¬ |avg - 365| ≤ max 2 (365 * (1 / 10))) :
    seqBestLoop avg sd = (("none" : String), (0 : ℝ)) := by
  unfold seqBestLoop
  simp only [List.foldl_cons, List.foldl_nil]
  rw [if_neg h7, if_neg h30, if_neg h365]

/-! C1. -/

/-- C1: on an empty history the aggregator raises instead of returning 0.0
percentages: get_pct_transactions_same_day divides the count by the history
length 0, a ZeroDivisionError, so the embedded get_features is none for
every reference transaction. -/
theorem get_features_empty_history_raises (tx : Transaction) :
    get_features tx [] = none := by
  have hseq : detect_sequence_patterns tx [] 3 = some ⟨0, "none", 0⟩ := by
    by_cases h : tx.amount = 0
    · simp only [detect_sequence_patterns]
      rw [if_pos h]
    · exact detect_short_group tx [] 3 h (by norm_num [seqVendorTxs])
  unfold get_features
  rw [hseq]
  rfl

/-! C3. -/

/-- C3: four same-name same-amount transactions exactly 30 days apart yield
pattern monthly with confidence exactly 1 (the gap standard deviation is 0)
and length 4; only two such transactions, below minOccurrences 3, yield
confidence 0, pattern none, length 0; a group with mean gap 33, within the
monthly tolerance max(2, 30/10) = 3, still classifies as monthly, while a
group with mean gap 35 classifies as no pattern. -/
theorem detect_sequence_patterns_scenarios :
    detect_sequence_patterns ⟨"Netflix", 10, "2024-01-01"⟩
        [⟨"Netflix", 10, "2024-01-01"⟩, ⟨"Netflix", 10, "2024-01-31"⟩,
          ⟨"Netflix", 10, "2024-03-01"⟩, ⟨"Netflix", 10, "2024-03-31"⟩] 3 =
      some ⟨1, "monthly", 4⟩ ∧
    detect_sequence_patterns ⟨"Netflix", 10, "2024-01-01"⟩
        [⟨"Netflix", 10, "2024-01-01"⟩, ⟨"Netflix", 10, "2024-01-31"⟩] 3 =
      some ⟨0, "none", 0⟩ ∧
    detect_sequence_patterns ⟨"Netflix", 10, "2024-01-01"⟩
        [⟨"Netflix", 10, "2024-01-01"⟩, ⟨"Netflix", 10, "2024-02-03"⟩,
          ⟨"Netflix", 10, "2024-03-07"⟩, ⟨"Netflix", 10, "2024-04-09"⟩] 3 =
      some ⟨1, "monthly", 4⟩ ∧
    detect_sequence_patterns ⟨"Netflix", 10, "2024-01-01"⟩
        [⟨"Netflix", 10, "2024-01-01"⟩, ⟨"Netflix", 10, "2024-02-05"⟩,
          ⟨"Netflix", 10, "2024-03-11"⟩, ⟨"Netflix", 10, "2024-04-15"⟩] 3 =
      some ⟨0, "none", 4⟩ := by
  have habs : ∀ a ∈ [((30 : ℤ) : ℚ), ((33 : ℤ) : ℚ)],
      (¬ |a - 7| ≤ max 2 (7 * (1 / 10))) ∧ |a - 30| ≤ max 2 (30 * (1 / 10)) ∧
        ¬ |a - 365| ≤ max 2 (365 * (1 / 10)) := by
    intro a ha
    fin_cases ha <;>
      exact ⟨by norm_num [abs_of_nonneg, abs_of_nonpos, max_def],
        by norm_num [abs_of_nonneg, abs_of_nonpos, max_def],
        by norm_num [abs_of_nonneg, abs_of_nonpos, max_def]⟩
  obtain ⟨h30, h33⟩ : _ ∧ _ :=
    ⟨habs _ (List.mem_cons_self _ _), habs _ (List.mem_cons_of_mem _ (List.mem_cons_self _ _))⟩
  refine ⟨?_, ?_, ?_, ?_⟩
  · have hv : seqVendorTxs (⟨"Netflix", 10, "2024-01-01"⟩ : Transaction)
        [⟨"Netflix", 10, "2024-01-01"⟩, ⟨"Netflix", 10, "2024-01-31"⟩,
          ⟨"Netflix", 10, "2024-03-01"⟩, ⟨"Netflix", 10, "2024-03-31"⟩] =
        [⟨"Netflix", 10, "2024-01-01"⟩, ⟨"Netflix", 10, "2024-01-31"⟩,
          ⟨"Netflix", 10, "2024-03-01"⟩, ⟨"Netflix", 10, "2024-03-31"⟩] := by
      unfold seqVendorTxs
      refine List.filter_eq_self.mpr ?_
      intro a ha
      fin_cases ha <;>
        · simp only [Bool.and_eq_true, decide_eq_true_eq]
          norm_num
    rw [detect_eval _ _ 3 [738886, 738916, 738946, 738976] (by norm_num)
      (by rw [hv]; decide) (by rw [hv]; decide)]
    have hc : consecDiffs (List.insertionSort (· ≤ ·) [738886, 738916, 738946, 738976]) =
        [30, 30, 30] := by decide
    rw [hc, seqFromIntervals_const,
      seqBestLoop_monthly ((30 : ℤ) : ℚ) h30.1 h30.2.1 h30.2.2, hv]
    rfl
  · have hv : seqVendorTxs (⟨"Netflix", 10, "2024-01-01"⟩ : Transaction)
        [⟨"Netflix", 10, "2024-01-01"⟩, ⟨"Netflix", 10, "2024-01-31"⟩] =
        [⟨"Netflix", 10, "2024-01-01"⟩, ⟨"Netflix", 10, "2024-01-31"⟩] := by
      unfold seqVendorTxs
      refine List.filter_eq_self.mpr ?_
      intro a ha
      fin_cases ha <;>
        · simp only [Bool.and_eq_true, decide_eq_true_eq]
          norm_num
    exact detect_short_group _ _ _ (by norm_num) (by rw [hv]; decide)
  · have hv : seqVendorTxs (⟨"Netflix", 10, "2024-01-01"⟩ : Transaction)
        [⟨"Netflix", 10, "2024-01-01"⟩, ⟨"Netflix", 10, "2024-02-03"⟩,
          ⟨"Netflix", 10, "2024-03-07"⟩, ⟨"Netflix", 10, "2024-04-09"⟩] =
        [⟨"Netflix", 10, "2024-01-01"⟩, ⟨"Netflix", 10, "2024-02-03"⟩,
          ⟨"Netflix", 10, "2024-03-07"⟩, ⟨"Netflix", 10, "2024-04-09"⟩] := by
      unfold seqVendorTxs
      refine List.filter_eq_self.mpr ?_
      intro a ha
      fin_cases ha <;>
        · simp only [Bool.and_eq_true, decide_eq_true_eq]
          norm_num
    rw [detect_eval _ _ 3 [738886, 738919, 738952, 738985] (by norm_num)
      (by rw [hv]; decide) (by rw [hv]; decide)]
    have hc : consecDiffs (List.insertionSort (· ≤ ·) [738886, 738919, 738952, 738985]) =
        [33, 33, 33] := by decide
    rw [hc, seqFromIntervals_const,
      seqBestLoop_monthly ((33 : ℤ) : ℚ) h33.1 h33.2.1 h33.2.2, hv]
    rfl
  · have hv : seqVendorTxs (⟨"Netflix", 10, "2024-01-01"⟩ : Transaction)
        [⟨"Netflix", 10, "2024-01-01"⟩, ⟨"Netflix", 10, "2024-02-05"⟩,
          ⟨"Netflix", 10, "2024-03-11"⟩, ⟨"Netflix", 10, "2024-04-15"⟩] =
        [⟨"Netflix", 10, "2024-01-01"⟩, ⟨"Netflix", 10, "2024-02-05"⟩,
          ⟨"Netflix", 10, "2024-03-11"⟩, ⟨"Netflix", 10, "2024-04-15"⟩] := by
      unfold seqVendorTxs
      refine List.filter_eq_self.mpr ?_
      intro a ha
      fin_cases ha <;>
        · simp only [Bool.and_eq_true, decide_eq_true_eq]
          norm_num
    rw [detect_eval _ _ 3 [738886, 738921, 738956, 738991] (by norm_num)
      (by rw [hv]; decide) (by rw [hv]; decide)]
    have hc : consecDiffs (List.insertionSort (· ≤ ·) [738886, 738921, 738956, 738991]) =
        [35, 35, 35] := by decide
    rw [hc, seqFromIntervals_const,
      seqBestLoop_no_pattern ((35 : ℤ) : ℚ) 0
        (by norm_num [abs_of_nonneg, abs_of_nonpos, max_def])
        (by norm_num [abs_of_nonneg, abs_of_nonpos, max_def])
        (by norm_num [abs_of_nonneg, abs_of_nonpos, max_def]), hv]
    rfl

/-! C6. -/

/-- C6: the recurring-transaction confidence is the composite
0.3/(1+stability) + 0.3/(1+regularity) + 0.2*(freq/max(freq,1)) + 0.2*meta,
in which the frequency term is exactly 0.2 whenever some same-name
transaction lies within 30 days of the reference and 0 otherwise, and with
fewer than two same-name different-date comparison transactions the
stability is 1.0 and the regularity is the infinity sentinel whose factor
contributes exactly 0. -/
theorem recurring_confidence_formula (tx : Transaction) (all : List Transaction)
    (h1 : (_parse_date tx.date).isSome)
    (h2 : ∀ t ∈ all, t.name = tx.name → (_parse_date t.date).isSome) :
    ∃ (ds : List ℕ) (freq : ℕ),
      confSimilarDatesM tx all = some ds ∧ freqCountM tx all = some freq ∧
      get_recurring_transaction_confidence tx all =
        some ((1 / (1 + amountStability tx all)) * (3 / 10) +
          regFactor (intervalRegularityOf ds) * (3 / 10) +
          (if 0 < freq then (1 : ℝ) else 0) * (1 / 5) +
          ((metadataSimilarity tx all : ℚ) : ℝ) * (1 / 5)) ∧
      ((confComparisons tx all).length < 2 →
        amountStability tx all = 1 ∧ intervalRegularityOf ds = none) := by
  have hmem : ∀ t ∈ confComparisons tx all, (_parse_date t.date).isSome := by
    intro t ht
    obtain ⟨hmemb, hpred⟩ := List.mem_filter.mp ht
    rw [Bool.and_eq_true] at hpred
    exact h2 t hmemb (of_decide_eq_true hpred.1)
  obtain ⟨ds, hds, hdslen⟩ :=
    mapOpt_isSome (fun t => _parse_date t.date) (confComparisons tx all) hmem
  have hds' : confSimilarDatesM tx all = some ds := hds
  obtain ⟨td, htd⟩ := Option.isSome_iff_exists.mp h1
  obtain ⟨freq, hfreq⟩ := countM_isSome
    (fun t => do
      let d ← _parse_date t.date
      some (decide (((d : ℤ) - (td : ℤ)).natAbs ≤ 30)))
    (all.filter (fun t => decide (t.name = tx.name)))
    (by
      intro t ht
      obtain ⟨hmemb, hpred⟩ := List.mem_filter.mp ht
      obtain ⟨dt, hdt⟩ :=
        Option.isSome_iff_exists.mp (h2 t hmemb (of_decide_eq_true hpred))
      simp [hdt])
  have hfreqM : freqCountM tx all = some freq := by
    unfold freqCountM
    rw [htd]
    exact hfreq
  refine ⟨ds, freq, hds', hfreqM, ?_, ?_⟩
  · have hfq : ((freq : ℝ) / ((max freq 1 : ℕ) : ℝ)) = if 0 < freq then (1 : ℝ) else 0 := by
      rcases Nat.eq_zero_or_pos freq with h | h
      · subst h
        norm_num
      · rw [if_pos h, max_eq_left h, div_self]
        exact_mod_cast Nat.pos_iff_ne_zero.mp h
    simp only [get_recurring_transaction_confidence, hds', hfreqM, Option.bind_eq_bind,
      Option.some_bind]
    rw [hfq]
  · intro hlt
    constructor
    · have hlen : (confSimilarAmounts tx all).length < 2 := by
        unfold confSimilarAmounts
        rw [List.length_map]
        exact hlt
      simp only [amountStability]
      rw [if_pos hlen]
    · have hdl : ds.length < 2 := by
        rw [hdslen]
        exact hlt
      simp only [intervalRegularityOf]
      rw [if_pos hdl]

/-- C6 witness at a one-element history holding only the reference: the
comparison set is empty, so the degenerate stability and regularity cases
apply, while the frequency count is 1. -/
theorem recurring_confidence_formula_witness :
    ∃ (ds : List ℕ) (freq : ℕ),
      confSimilarDatesM ⟨"Netflix", 10, "2024-01-01"⟩ [⟨"Netflix", 10, "2024-01-01"⟩] =
        some ds ∧
      freqCountM ⟨"Netflix", 10, "2024-01-01"⟩ [⟨"Netflix", 10, "2024-01-01"⟩] =
        some freq ∧
      get_recurring_transaction_confidence ⟨"Netflix", 10, "2024-01-01"⟩
          [⟨"Netflix", 10, "2024-01-01"⟩] =
        some ((1 / (1 + amountStability ⟨"Netflix", 10, "2024-01-01"⟩
            [⟨"Netflix", 10, "2024-01-01"⟩])) * (3 / 10) +
          regFactor (intervalRegularityOf ds) * (3 / 10) +
          (if 0 < freq then (1 : ℝ) else 0) * (1 / 5) +
          ((metadataSimilarity ⟨"Netflix", 10, "2024-01-01"⟩
              [⟨"Netflix", 10, "2024-01-01"⟩] : ℚ) : ℝ) * (1 / 5)) ∧
      ((confComparisons ⟨"Netflix", 10, "2024-01-01"⟩
          [⟨"Netflix", 10, "2024-01-01"⟩]).length < 2 →
        amountStability ⟨"Netflix", 10, "2024-01-01"⟩
          [⟨"Netflix", 10, "2024-01-01"⟩] = 1 ∧
        intervalRegularityOf ds = none) :=
  recurring_confidence_formula _ _ (by decide) (by decide)
